import Mathlib

/-!
Verification of the Echosphere sentiment-scoring core.

The definitions below are a shallow embedding of the Python code in
`backend/ai_services.py` (class `AIService`) and `backend/app.py`
(`BrandAIAnalyzer.calculate_ai_risk`).  Sentiment and emotion labels are
kept as strings, Python floats are modelled as rationals, and Python
string operations (`str.split`, `str.strip`, `str.lower`, substring `in`)
are modelled by explicit functions on character lists.
-/

/-- Characters treated as whitespace by Python `str.split` / `str.strip`
(ASCII fragment). -/
def isPySpace (c : Char) : Bool :=
  c.toNat = 32 || c.toNat = 9 || c.toNat = 10 || c.toNat = 13 || c.toNat = 11 || c.toNat = 12

/-- Whether the first list is an initial segment of the second. -/
def leadsWith : List Char → List Char → Bool
  | [], _ => true
  | _ :: _, [] => false
  | a :: as, b :: bs => a == b && leadsWith as bs

/-- Whether the first list occurs as a contiguous sublist of the second,
modelling the Python substring test `needle in hay`. -/
def occursIn (needle : List Char) : List Char → Bool
  | [] => leadsWith needle []
  | c :: rest => leadsWith needle (c :: rest) || occursIn needle rest

/-- Python `needle in hay` on strings. -/
def strContains (needle hay : String) : Bool :=
  occursIn needle.toList hay.toList

/-- Python `str.lower` (ASCII fragment). -/
def pyLower (s : String) : String :=
  String.mk (s.toList.map Char.toLower)

/-- Helper for `pySplit`: accumulates the current word (reversed). -/
def pySplitAux : List Char → List Char → List String
  | [], acc => if acc.isEmpty then [] else [String.mk acc.reverse]
  | c :: cs, acc =>
    if isPySpace c then
      if acc.isEmpty then pySplitAux cs [] else String.mk acc.reverse :: pySplitAux cs []
    else pySplitAux cs (c :: acc)

/-- Python `str.split()` with no argument: split on whitespace runs,
discarding empty words. -/
def pySplit (s : String) : List String :=
  pySplitAux s.toList []

/-- Python `str.strip()`: drop leading and trailing whitespace. -/
def pyStrip (s : String) : String :=
  String.mk (((s.toList.dropWhile fun c => isPySpace c).reverse.dropWhile fun c => isPySpace c).reverse)

/-- Python `round` on a rational: round half to even, as for floats. -/
def pyRound (q : ℚ) : ℤ :=
  let f : ℤ := ⌊q⌋
  let r : ℚ := q - (f : ℚ)
  if r < 1/2 then f
  else if 1/2 < r then f + 1
  else if f % 2 = 0 then f else f + 1

/-- Drop the maximal run of non-whitespace characters, modelling the regex
`\S+` consuming greedily. -/
def dropNonSpace : List Char → List Char
  | [] => []
  | c :: cs => if isPySpace c then c :: cs else dropNonSpace cs

/-- Whether a `\S+` match can start here (at least one non-space char). -/
def urlTail : List Char → Bool
  | [] => false
  | c :: _ => !isPySpace c

/-- Fuel-indexed scan for the URL-stripping substitution of `clean_text`
(regex: the literal http followed by one or more non-space characters,
replaced by the empty string): at each position,
if the literal `http` followed by at least one non-space character matches,
the whole match is removed and scanning resumes after it; otherwise the
character is kept.  The fuel is an upper bound on the number of steps and
is never exhausted when it starts at the length of the list. -/
def stripUrlsFuel : Nat → List Char → List Char
  | 0, l => l
  | _ + 1, [] => []
  | fuel + 1, c :: cs =>
    if c == 'h' && leadsWith ['t', 't', 'p'] cs && urlTail (cs.drop 3) then
      stripUrlsFuel fuel (dropNonSpace (cs.drop 3))
    else c :: stripUrlsFuel fuel cs

/-- Model of the URL-stripping substitution of `clean_text` over a
character list. -/
def stripUrls (l : List Char) : List Char :=
  stripUrlsFuel l.length l

/-- Characters kept by the special-character substitution of `clean_text`
(everything outside this class becomes a space):
word characters (ASCII letters, digits, underscore), whitespace, and the
basic punctuation marks period, exclamation mark and question mark. -/
def keepChar (c : Char) : Bool :=
  (('a' ≤ c && c ≤ 'z') || ('A' ≤ c && c ≤ 'Z') || ('0' ≤ c && c ≤ '9') ||
    c == '_' || isPySpace c || c == '.' || c == '!' || c == '?')

/-- Model of `AIService.clean_text`: remove URLs, replace special
characters by spaces, collapse whitespace, strip. -/
def clean_text (text : String) : String :=
  if text = "" then ""
  else
    let t1 := stripUrls text.toList
    let t2 := t1.map fun c => if keepChar c then c else ' '
    let t3 := String.intercalate " " (pySplit (String.mk t2))
    pyStrip t3

/-- Association-list lookup modelling Python dict access by key. -/
def lookupQ (w : String) : List (String × ℚ) → Option ℚ
  | [] => none
  | (k, v) :: rest => if w == k then some v else lookupQ w rest

/-- The positive-word lexicon of `analyze_sentiment_enhanced`
(the Python dict literal repeats the key `outstanding` with the same
weight, which a dict collapses to one entry). -/
def positive_words : List (String × ℚ) :=
  [("love", 3), ("amazing", 3), ("great", 2), ("excellent", 3), ("awesome", 2),
   ("best", 2), ("perfect", 3), ("outstanding", 3), ("good", 1), ("nice", 1),
   ("happy", 2), ("fantastic", 2), ("brilliant", 2), ("superb", 2), ("wonderful", 2),
   ("recommend", 2), ("impressed", 2), ("pleased", 1), ("satisfied", 1), ("excited", 2),
   ("stellar", 3), ("phenomenal", 3), ("exceptional", 3),
   ("beautiful", 2), ("smooth", 1), ("fast", 1), ("reliable", 2), ("innovative", 2)]

/-- The negative-word lexicon of `analyze_sentiment_enhanced`. -/
def negative_words : List (String × ℚ) :=
  [("hate", 3), ("terrible", 3), ("awful", 3), ("worst", 3), ("disappointed", 2),
   ("bad", 1), ("poor", 2), ("horrible", 3), ("angry", 2), ("frustrating", 2),
   ("waste", 2), ("useless", 2), ("broken", 2), ("failed", 2), ("rubbish", 2),
   ("avoid", 2), ("complaint", 2), ("issue", 1), ("problem", 1), ("disgusting", 3),
   ("appalling", 3), ("unacceptable", 3), ("dreadful", 3), ("slow", 1), ("buggy", 2),
   ("crash", 2), ("freeze", 1), ("expensive", 1), ("overpriced", 2)]

/-- The intensifier table of `analyze_sentiment_enhanced`. -/
def intensifiers : List (String × ℚ) :=
  [("very", 3/2), ("really", 13/10), ("extremely", 17/10), ("absolutely", 8/5)]

/-- The negation table of `analyze_sentiment_enhanced`. -/
def negations : List (String × ℚ) :=
  [("not", -1), ("don\x27t", -1), ("doesn\x27t", -1), ("isn\x27t", -1), ("aren\x27t", -1)]

/-- One iteration of the weighted scan in `analyze_sentiment_enhanced`.
State: (positive_score, negative_score, modifier). -/
def scanStep (st : ℚ × ℚ × ℚ) (w : String) : ℚ × ℚ × ℚ :=
  match lookupQ w intensifiers with
  | some v => (st.1, st.2.1, v)
  | none =>
    match lookupQ w negations with
    | some v => (st.1, st.2.1, v)
    | none =>
      let current_modifier := st.2.2
      match lookupQ w positive_words with
      | some wt => (st.1 + max (wt * current_modifier) 0, st.2.1, 1)
      | none =>
        match lookupQ w negative_words with
        | some wt => (st.1, st.2.1 + wt * |current_modifier|, 1)
        | none => (st.1, st.2.1, 1)

/-- Model of `AIService.analyze_neutral_sentiment` on the lowercased
text. -/
def analyze_neutral_sentiment (text_lower : String) : String × String × ℚ :=
  if ["?", "how", "what", "when", "where", "why"].any
      (fun w => strContains w text_lower) then ("neutral", "curious", 65)
  else if ["not sure", "thinking about", "maybe", "perhaps", "possibly"].any
      (fun w => strContains w text_lower) then ("neutral", "uncertain", 60)
  else if ["not bad", "could be worse", "so so", "average"].any
      (fun w => strContains w text_lower) then ("neutral", "mixed", 55)
  else ("neutral", "neutral", 50)

/-- Model of `AIService.detect_emotion`: keyword scan over the lowercased
original text, first match wins; the numeric score argument is unused. -/
def detect_emotion (text : String) (sentiment : String) (score : ℚ) : String :=
  let text_lower := pyLower text
  if sentiment = "positive" then
    if ["excited", "thrilled", "amazing", "wow"].any
        (fun w => strContains w text_lower) then "excitement"
    else if ["love", "adore", "beautiful", "perfect"].any
        (fun w => strContains w text_lower) then "love"
    else if ["happy", "pleased", "satisfied"].any
        (fun w => strContains w text_lower) then "joy"
    else "satisfaction"
  else
    if ["angry", "furious", "outraged", "hate"].any
        (fun w => strContains w text_lower) then "anger"
    else if ["frustrated", "annoyed", "disappointed"].any
        (fun w => strContains w text_lower) then "frustration"
    else if ["sad", "upset", "unhappy", "depressed"].any
        (fun w => strContains w text_lower) then "sadness"
    else if ["scared", "worried", "anxious", "nervous"].any
        (fun w => strContains w text_lower) then "fear"
    else "disappointment"

/-- Model of `AIService.analyze_sentiment_enhanced`: the keyword lexicon
scorer. -/
def analyze_sentiment_enhanced (text : String) : String × String × ℚ :=
  if text = "" then ("neutral", "neutral", 50)
  else
    let text_lower := pyLower text
    let words := pySplit text_lower
    let st := words.foldl scanStep (0, 0, 1)
    let positive_score := st.1
    let negative_score := st.2.1
    let total_score := positive_score + negative_score
    if total_score = 0 then analyze_neutral_sentiment text_lower
    else if negative_score > positive_score then
      ("negative", detect_emotion text "negative" negative_score,
        min 95 (50 + negative_score * 3))
    else if positive_score > negative_score then
      ("positive", detect_emotion text "positive" positive_score,
        min 95 (50 + positive_score * 3))
    else ("neutral", "neutral", 60)

/-- Model of `AIService.analyze_sentiment_ai` in the lexicon configuration
(`use_huggingface = False`, the sole path when no external backend is
configured): the degenerate-input guard followed by the lexicon scorer. -/
def analyze_sentiment_ai (text : String) : String × String × ℚ :=
  if text = "" ∨ (pyStrip text).length < 2 then ("neutral", "neutral", 50)
  else analyze_sentiment_enhanced text

/-- Model of `AIService.analyze_with_transformers`, with the external classifier
modelled as a function returning either a (label, probability) pair or a
failure; the `except` clause of the source becomes the `Except.error`
branch, which falls back to the lexicon scorer. -/
def analyze_with_transformers (classify : String → Except String (String × ℚ))
    (text : String) : String × String × ℚ :=
  let ct := clean_text text
  if ct.length < 3 then ("neutral", "neutral", 50)
  else
    let processed_text := ct.take 512
    match classify processed_text with
    | Except.error _ => analyze_sentiment_enhanced text
    | Except.ok res =>
      let label := res.1
      let sentiment0 := if label = "POSITIVE" ∨ label = "LABEL_2" then "positive" else "negative"
      let sentiment := if label = "NEUTRAL" ∨ label = "LABEL_1" then "neutral" else sentiment0
      let confidence : ℚ := ((pyRound (res.2 * 100) : ℤ) : ℚ)
      (sentiment, detect_emotion text sentiment confidence, confidence)

/-- A scored mention as consumed by `BrandAIAnalyzer.calculate_ai_risk`
(the `ScoredText` of the data model). -/
structure Mention where
  text : String
  sentiment : String
  emotion : String
  confidence : ℚ
deriving DecidableEq

/-- Model of `BrandAIAnalyzer.calculate_ai_risk`: risk score (rounded),
tier, icon. -/
def calculate_ai_risk (mentions : List Mention) : ℤ × String × String :=
  if mentions = [] then (0, "low", "🟢")
  else
    let negative_count : ℚ := ((mentions.filter fun m => m.sentiment == "negative").length : ℚ)
    let anger_count : ℚ :=
      ((mentions.filter fun m => m.emotion == "anger" || m.emotion == "frustration").length : ℚ)
    let total_mentions : ℚ := (mentions.length : ℚ)
    let negative_mentions := mentions.filter fun m => m.sentiment == "negative"
    let avg_confidence : ℚ :=
      if negative_mentions = [] then 0
      else ((negative_mentions.map fun m => m.confidence).sum) / ((negative_mentions.length : ℚ))
    let risk_multiplier : ℚ :=
      if negative_mentions = [] then 1 else 1 + avg_confidence / 100
    let base_risk := negative_count * 8 + anger_count * 12
    let confidence_risk := avg_confidence * (3/10)
    let volume_risk := min 20 (total_mentions * (1/10))
    let risk_score := min 100 ((base_risk + confidence_risk + volume_risk) * risk_multiplier)
    if risk_score > 70 then (pyRound risk_score, "high", "🔴")
    else if risk_score > 40 then (pyRound risk_score, "medium", "🟡")
    else (pyRound risk_score, "low", "🟢")

/-- Spec-side quantity `negativeCount = count(sentiment == negative)`,
stated with the same predicate the source filters on. -/
def negativeCount (ms : List Mention) : ℕ :=
  (ms.filter fun m => m.sentiment == "negative").length

/-- Spec-side quantity `angerCount = count(emotion in (anger, frustration))`. -/
def angerCount (ms : List Mention) : ℕ :=
  (ms.filter fun m => m.emotion == "anger" || m.emotion == "frustration").length

/-- Spec-side quantity `avgNegConfidence`: mean confidence of the negative
items, 0 when there are none. -/
def avgNegConfidence (ms : List Mention) : ℚ :=
  if ms.filter (fun m => m.sentiment == "negative") = [] then 0
  else (((ms.filter fun m => m.sentiment == "negative").map fun m => m.confidence).sum) /
    (((ms.filter fun m => m.sentiment == "negative").length : ℚ))

/-- A rational that is (the cast of) an integer. -/
def IsIntQ (q : ℚ) : Prop := ∃ z : ℤ, q = (z : ℚ)

/-- The final state of the weighted scan of `analyze_sentiment_enhanced`
on a text: (positive_score, negative_score, final modifier). -/
def scanOf (t : String) : ℚ × ℚ × ℚ :=
  (pySplit (pyLower t)).foldl scanStep (0, 0, 1)

/-- Any value returned by `lookupQ` satisfies any property that holds of
every table entry. -/
theorem lookupQ_holds {P : ℚ → Prop} (w : String) :
    ∀ l : List (String × ℚ), (∀ x ∈ l, P x.2) → ∀ v, lookupQ w l = some v → P v := by
  intro l
  induction l with
  | nil => intro _ v hv; simp [lookupQ] at hv
  | cons a rest ih =>
    intro hall v hv
    obtain ⟨k, val⟩ := a
    by_cases hw : (w == k) = true
    · rw [show lookupQ w ((k, val) :: rest) = if w == k then some val else lookupQ w rest
        from rfl, if_pos hw] at hv
      have hvv := Option.some.inj hv
      subst hvv
      exact hall (k, val) (List.mem_cons_self _ _)
    · rw [show lookupQ w ((k, val) :: rest) = if w == k then some val else lookupQ w rest
        from rfl, if_neg hw] at hv
      exact ih (fun x hx => hall x (List.mem_cons_of_mem _ hx)) v hv

/-- Every negative-lexicon weight is nonnegative. -/
theorem negative_words_nonneg : ∀ x ∈ negative_words, (0 : ℚ) ≤ x.2 := by decide

/-- Every positive-lexicon weight is an integer. -/
theorem positive_words_den_one : ∀ x ∈ positive_words, x.2.den = 1 := by decide

/-- Every negative-lexicon weight is an integer. -/
theorem negative_words_den_one : ∀ x ∈ negative_words, x.2.den = 1 := by decide

/-- Every negation maps to the sign flip -1. -/
theorem negations_neg_one : ∀ x ∈ negations, x.2 = (-1 : ℚ) := by decide

theorem isIntQ_of_den {q : ℚ} (h : q.den = 1) : IsIntQ q :=
  ⟨q.num, ((Rat.den_eq_one_iff q).mp h).symm⟩

theorem isIntQ_add {a b : ℚ} (ha : IsIntQ a) (hb : IsIntQ b) : IsIntQ (a + b) := by
  obtain ⟨x, hx⟩ := ha
  obtain ⟨y, hy⟩ := hb
  exact ⟨x + y, by rw [hx, hy]; push_cast; ring⟩

theorem isIntQ_mul {a b : ℚ} (ha : IsIntQ a) (hb : IsIntQ b) : IsIntQ (a * b) := by
  obtain ⟨x, hx⟩ := ha
  obtain ⟨y, hy⟩ := hb
  exact ⟨x * y, by rw [hx, hy]; push_cast; ring⟩

theorem isIntQ_max_zero {a : ℚ} (ha : IsIntQ a) : IsIntQ (max a 0) := by
  obtain ⟨x, hx⟩ := ha
  refine ⟨max x 0, ?_⟩
  rw [hx, Int.cast_max]
  norm_num

theorem isIntQ_min {a b : ℚ} (ha : IsIntQ a) (hb : IsIntQ b) : IsIntQ (min a b) := by
  obtain ⟨x, hx⟩ := ha
  obtain ⟨y, hy⟩ := hb
  refine ⟨min x y, ?_⟩
  rw [hx, hy, Int.cast_min]

/-- One scan step keeps both scores nonnegative. -/
theorem scanStep_nonneg (p n m : ℚ) (w : String) (hp : 0 ≤ p) (hn : 0 ≤ n) :
    0 ≤ (scanStep (p, n, m) w).1 ∧ 0 ≤ (scanStep (p, n, m) w).2.1 := by
  cases hli : lookupQ w intensifiers with
  | some v => simp only [scanStep, hli]; exact ⟨hp, hn⟩
  | none =>
    cases hln : lookupQ w negations with
    | some v => simp only [scanStep, hli, hln]; exact ⟨hp, hn⟩
    | none =>
      cases hlp : lookupQ w positive_words with
      | some wt =>
        simp only [scanStep, hli, hln, hlp]
        refine ⟨?_, hn⟩
        have h0 : (0 : ℚ) ≤ max (wt * m) 0 := le_max_right _ _
        linarith
      | none =>
        cases hlq : lookupQ w negative_words with
        | some wt =>
          simp only [scanStep, hli, hln, hlp, hlq]
          refine ⟨hp, ?_⟩
          have hwt : (0 : ℚ) ≤ wt := lookupQ_holds w negative_words negative_words_nonneg wt hlq
          have h0 : (0 : ℚ) ≤ wt * |m| := mul_nonneg hwt (abs_nonneg m)
          linarith
        | none => simp only [scanStep, hli, hln, hlp, hlq]; exact ⟨hp, hn⟩

/-- The whole scan keeps both scores nonnegative. -/
theorem foldl_scanStep_nonneg (ws : List String) :
    ∀ (p n m : ℚ), 0 ≤ p → 0 ≤ n →
      0 ≤ (ws.foldl scanStep (p, n, m)).1 ∧ 0 ≤ (ws.foldl scanStep (p, n, m)).2.1 := by
  induction ws with
  | nil => intro p n m hp hn; exact ⟨hp, hn⟩
  | cons w ws ih =>
    intro p n m hp hn
    have h := scanStep_nonneg p n m w hp hn
    simpa only [List.foldl_cons] using ih (scanStep (p, n, m) w).1 (scanStep (p, n, m) w).2.1
      (scanStep (p, n, m) w).2.2 h.1 h.2

/-- One scan step on a non-intensifier word keeps both scores integral and
the modifier in the sign set. -/
theorem scanStep_int (p n m : ℚ) (w : String)
    (hi : lookupQ w intensifiers = none) (hp : IsIntQ p) (hn : IsIntQ n)
    (hm : m = 1 ∨ m = -1) :
    IsIntQ (scanStep (p, n, m) w).1 ∧ IsIntQ (scanStep (p, n, m) w).2.1 ∧
      ((scanStep (p, n, m) w).2.2 = 1 ∨ (scanStep (p, n, m) w).2.2 = -1) := by
  have hmInt : IsIntQ m := by
    rcases hm with h | h
    · exact ⟨1, by rw [h]; norm_num⟩
    · exact ⟨-1, by rw [h]; norm_num⟩
  have habs : |m| = 1 := by rcases hm with h | h <;> rw [h] <;> norm_num
  cases hln : lookupQ w negations with
  | some v =>
    have hv : v = -1 :=
      @lookupQ_holds (fun q => q = -1) w negations negations_neg_one v hln
    simp only [scanStep, hi, hln]
    exact ⟨hp, hn, Or.inr hv⟩
  | none =>
    cases hlp : lookupQ w positive_words with
    | some wt =>
      have hwt : IsIntQ wt :=
        isIntQ_of_den
          (@lookupQ_holds (fun q => q.den = 1) w positive_words positive_words_den_one wt hlp)
      simp only [scanStep, hi, hln, hlp]
      exact ⟨isIntQ_add hp (isIntQ_max_zero (isIntQ_mul hwt hmInt)), hn, by simp⟩
    | none =>
      cases hlq : lookupQ w negative_words with
      | some wt =>
        have hwt : IsIntQ wt :=
          isIntQ_of_den
            (@lookupQ_holds (fun q => q.den = 1) w negative_words negative_words_den_one wt hlq)
        simp only [scanStep, hi, hln, hlp, hlq, habs, mul_one]
        exact ⟨hp, isIntQ_add hn hwt, by simp⟩
      | none =>
        simp only [scanStep, hi, hln, hlp, hlq]
        exact ⟨hp, hn, by simp⟩

/-- On a text with no intensifier token, the final scores of the scan are
integers. -/
theorem foldl_scanStep_int (ws : List String) :
    ∀ (p n m : ℚ), (∀ w ∈ ws, lookupQ w intensifiers = none) →
      IsIntQ p → IsIntQ n → (m = 1 ∨ m = -1) →
      IsIntQ (ws.foldl scanStep (p, n, m)).1 ∧ IsIntQ (ws.foldl scanStep (p, n, m)).2.1 := by
  induction ws with
  | nil => intro p n m _ hp hn _; exact ⟨hp, hn⟩
  | cons w ws ih =>
    intro p n m hall hp hn hm
    have hi : lookupQ w intensifiers = none := hall w (List.mem_cons_self _ _)
    have h := scanStep_int p n m w hi hp hn hm
    simpa only [List.foldl_cons] using ih (scanStep (p, n, m) w).1 (scanStep (p, n, m) w).2.1
      (scanStep (p, n, m) w).2.2 (fun x hx => hall x (List.mem_cons_of_mem _ hx)) h.1 h.2.1 h.2.2

/-- The neutral analyzer always reports neutral sentiment with confidence
65, 60, 55 or 50. -/
theorem analyze_neutral_sentiment_shape (s : String) :
    (analyze_neutral_sentiment s).1 = "neutral" ∧
      ((analyze_neutral_sentiment s).2.2 = 65 ∨ (analyze_neutral_sentiment s).2.2 = 60 ∨
        (analyze_neutral_sentiment s).2.2 = 55 ∨ (analyze_neutral_sentiment s).2.2 = 50) := by
  unfold analyze_neutral_sentiment
  split
  · exact ⟨rfl, Or.inl rfl⟩
  · split
    · exact ⟨rfl, Or.inr (Or.inl rfl)⟩
    · split
      · exact ⟨rfl, Or.inr (Or.inr (Or.inl rfl))⟩
      · exact ⟨rfl, Or.inr (Or.inr (Or.inr rfl))⟩

/-- The positive branch of the emotion sub-classifier only yields the four
positive emotions. -/
theorem detect_emotion_positive_mem (t : String) (s : ℚ) :
    detect_emotion t "positive" s ∈ (["excitement", "love", "joy", "satisfaction"] : List String) := by
  unfold detect_emotion
  rw [if_pos rfl]
  split
  · simp
  · split
    · simp
    · split
      · simp
      · simp

/-- Case analysis on the lexicon-path scorer: degenerate guard, neutral
fallback, tie, negative branch, or positive branch. -/
theorem ai_shape (t : String) :
    analyze_sentiment_ai t = ("neutral", "neutral", 50) ∨
    analyze_sentiment_ai t = analyze_neutral_sentiment (pyLower t) ∨
    analyze_sentiment_ai t = ("neutral", "neutral", 60) ∨
    analyze_sentiment_ai t = ("negative", detect_emotion t "negative" (scanOf t).2.1,
      min 95 (50 + (scanOf t).2.1 * 3)) ∨
    analyze_sentiment_ai t = ("positive", detect_emotion t "positive" (scanOf t).1,
      min 95 (50 + (scanOf t).1 * 3)) := by
  simp only [analyze_sentiment_ai, analyze_sentiment_enhanced, scanOf]
  split
  · exact Or.inl rfl
  · split
    · exact Or.inl rfl
    · split
      · exact Or.inr (Or.inl rfl)
      · split
        · exact Or.inr (Or.inr (Or.inr (Or.inl rfl)))
        · split
          · exact Or.inr (Or.inr (Or.inr (Or.inr rfl)))
          · exact Or.inr (Or.inr (Or.inl rfl))

/-- The degenerate-input guard passed, the scorer is the lexicon scan. -/
theorem ai_eq_enhanced (t : String) (h : ¬(t = "" ∨ (pyStrip t).length < 2)) :
    analyze_sentiment_ai t = analyze_sentiment_enhanced t := by
  simp only [analyze_sentiment_ai, if_neg h]

/-- The lexicon scorer expressed through the final scan state. -/
theorem enhanced_of_scan (t : String) (p n m : ℚ) (ht : ¬t = "")
    (h : scanOf t = (p, n, m)) :
    analyze_sentiment_enhanced t =
      if p + n = 0 then analyze_neutral_sentiment (pyLower t)
      else if n > p then ("negative", detect_emotion t "negative" n, min 95 (50 + n * 3))
      else if p > n then ("positive", detect_emotion t "positive" p, min 95 (50 + p * 3))
      else ("neutral", "neutral", 60) := by
  have hp : ((pySplit (pyLower t)).foldl scanStep (0, 0, 1)).1 = p := by
    rw [show (pySplit (pyLower t)).foldl scanStep ((0 : ℚ), (0 : ℚ), (1 : ℚ)) = scanOf t
      from rfl, h]
  have hn : ((pySplit (pyLower t)).foldl scanStep (0, 0, 1)).2.1 = n := by
    rw [show (pySplit (pyLower t)).foldl scanStep ((0 : ℚ), (0 : ℚ), (1 : ℚ)) = scanOf t
      from rfl, h]
  simp only [analyze_sentiment_enhanced, if_neg ht, hp, hn]

/-- Evaluation rule for `pyRound` when the remainder is below one half. -/
theorem pyRound_down (q : ℚ) (z : ℤ) (h1 : (z : ℚ) ≤ q) (h2 : q < (z : ℚ) + 1)
    (h3 : q - (z : ℚ) < 1/2) : pyRound q = z := by
  have hf : ⌊q⌋ = z := by
    rw [Int.floor_eq_iff]
    exact ⟨h1, h2⟩
  unfold pyRound
  rw [hf, if_pos h3]

/-- Evaluation rule for `pyRound` when the remainder is above one half. -/
theorem pyRound_up (q : ℚ) (z : ℤ) (h1 : (z : ℚ) ≤ q) (h2 : q < (z : ℚ) + 1)
    (h3 : 1/2 < q - (z : ℚ)) : pyRound q = z + 1 := by
  have hf : ⌊q⌋ = z := by
    rw [Int.floor_eq_iff]
    exact ⟨h1, h2⟩
  unfold pyRound
  rw [hf, if_neg (by linarith), if_pos h3]

/-- Concrete run: the scorer on "good". -/
theorem eval_good : analyze_sentiment_ai "good" = ("positive", "satisfaction", 53) := by
  have hsc : scanOf "good" = (1, 0, 1) := by
    have h0 : scanOf "good" = (0 + max (1 * (1 : ℚ)) 0, (0 : ℚ), (1 : ℚ)) := rfl
    rw [h0]
    norm_num [max_def]
  rw [ai_eq_enhanced "good" (by decide), enhanced_of_scan "good" 1 0 1 (by decide) hsc]
  rw [show detect_emotion "good" "positive" 1 = "satisfaction" from rfl]
  norm_num [min_def]

/-- Concrete run: the scorer on "??". -/
theorem eval_qq : analyze_sentiment_ai "??" = ("neutral", "curious", 65) := by
  have hsc : scanOf "??" = (0, 0, 1) := rfl
  rw [ai_eq_enhanced "??" (by decide), enhanced_of_scan "??" 0 0 1 (by decide) hsc]
  rw [show analyze_neutral_sentiment (pyLower "??") = ("neutral", "curious", 65) from rfl]
  norm_num

/-- Concrete run: the scorer on "not a good". -/
theorem eval_not_a_good :
    analyze_sentiment_ai "not a good" = ("positive", "satisfaction", 53) := by
  have hsc : scanOf "not a good" = (1, 0, 1) := by
    have h0 : scanOf "not a good" = (0 + max (1 * (1 : ℚ)) 0, (0 : ℚ), (1 : ℚ)) := rfl
    rw [h0]
    norm_num [max_def]
  rw [ai_eq_enhanced "not a good" (by decide),
    enhanced_of_scan "not a good" 1 0 1 (by decide) hsc]
  rw [show detect_emotion "not a good" "positive" 1 = "satisfaction" from rfl]
  norm_num [min_def]

/-- Concrete run: the scorer on "not good". -/
theorem eval_not_good :
    analyze_sentiment_ai "not good" = ("neutral", "neutral", 50) := by
  have hsc : scanOf "not good" = (0, 0, 1) := by
    have h0 : scanOf "not good" = (0 + max ((1 : ℚ) * -1) 0, (0 : ℚ), (1 : ℚ)) := rfl
    rw [h0]
    norm_num [max_def]
  rw [ai_eq_enhanced "not good" (by decide), enhanced_of_scan "not good" 0 0 1 (by decide) hsc]
  rw [show analyze_neutral_sentiment (pyLower "not good") = ("neutral", "neutral", 50) from rfl]
  norm_num

/-- Concrete run: the scorer on "great,". -/
theorem eval_great_comma :
    analyze_sentiment_ai "great," = ("neutral", "neutral", 50) := by
  have hsc : scanOf "great," = (0, 0, 1) := rfl
  rw [ai_eq_enhanced "great," (by decide), enhanced_of_scan "great," 0 0 1 (by decide) hsc]
  rw [show analyze_neutral_sentiment (pyLower "great,") = ("neutral", "neutral", 50) from rfl]
  norm_num

/-- Concrete run: the scorer on "great". -/
theorem eval_great :
    analyze_sentiment_ai "great" = ("positive", "satisfaction", 56) := by
  have hsc : scanOf "great" = (2, 0, 1) := by
    have h0 : scanOf "great" = (0 + max (2 * (1 : ℚ)) 0, (0 : ℚ), (1 : ℚ)) := rfl
    rw [h0]
    norm_num [max_def]
  rw [ai_eq_enhanced "great" (by decide), enhanced_of_scan "great" 2 0 1 (by decide) hsc]
  rw [show detect_emotion "great" "positive" 2 = "satisfaction" from rfl]
  norm_num [min_def]

/-- Concrete run: the scorer on "very bad". -/
theorem eval_very_bad :
    analyze_sentiment_ai "very bad" = ("negative", "disappointment", 109/2) := by
  have hsc : scanOf "very bad" = (0, 3/2, 1) := by
    have h0 : scanOf "very bad" = ((0 : ℚ), 0 + 1 * |(3/2 : ℚ)|, (1 : ℚ)) := rfl
    rw [h0, show |(3/2 : ℚ)| = 3/2 from abs_of_nonneg (by norm_num)]
    norm_num
  rw [ai_eq_enhanced "very bad" (by decide),
    enhanced_of_scan "very bad" 0 (3/2) 1 (by decide) hsc]
  rw [show detect_emotion "very bad" "negative" (3/2) = "disappointment" from rfl]
  norm_num [min_def]

/-- Claim C3: for every string t, the scorer terminates with a total
result whose confidence lies in [0, 100] and whose sentiment is one of
positive, negative, neutral. -/
theorem score_total_and_bounded (t : String) :
    (0 ≤ (analyze_sentiment_ai t).2.2 ∧ (analyze_sentiment_ai t).2.2 ≤ 100) ∧
      ((analyze_sentiment_ai t).1 = "positive" ∨ (analyze_sentiment_ai t).1 = "negative" ∨
        (analyze_sentiment_ai t).1 = "neutral") := by
  have hnn := foldl_scanStep_nonneg (pySplit (pyLower t)) 0 0 1 le_rfl le_rfl
  have hp : 0 ≤ (scanOf t).1 := hnn.1
  have hn : 0 ≤ (scanOf t).2.1 := hnn.2
  rcases ai_shape t with h | h | h | h | h <;> rw [h]
  · exact ⟨⟨by norm_num, by norm_num⟩, Or.inr (Or.inr rfl)⟩
  · obtain ⟨h1, h2⟩ := analyze_neutral_sentiment_shape (pyLower t)
    refine ⟨?_, Or.inr (Or.inr h1)⟩
    rcases h2 with h2 | h2 | h2 | h2 <;> rw [h2] <;> norm_num
  · exact ⟨⟨by norm_num, by norm_num⟩, Or.inr (Or.inr rfl)⟩
  · refine ⟨⟨le_min (by norm_num) (by linarith), ?_⟩, Or.inr (Or.inl rfl)⟩
    calc min 95 (50 + (scanOf t).2.1 * 3) ≤ 95 := min_le_left _ _
      _ ≤ 100 := by norm_num
  · refine ⟨⟨le_min (by norm_num) (by linarith), ?_⟩, Or.inl rfl⟩
    calc min 95 (50 + (scanOf t).1 * 3) ≤ 95 := min_le_left _ _
      _ ≤ 100 := by norm_num

/-- Claim C10: the lexicon-path scorer never reports a confidence outside
[50, 95]; in particular it never self-reports certainty below 50. -/
theorem lexicon_confidence_range (t : String) :
    50 ≤ (analyze_sentiment_ai t).2.2 ∧ (analyze_sentiment_ai t).2.2 ≤ 95 := by
  have hnn := foldl_scanStep_nonneg (pySplit (pyLower t)) 0 0 1 le_rfl le_rfl
  have hp : 0 ≤ (scanOf t).1 := hnn.1
  have hn : 0 ≤ (scanOf t).2.1 := hnn.2
  rcases ai_shape t with h | h | h | h | h <;> rw [h]
  · exact ⟨by norm_num, by norm_num⟩
  · rcases (analyze_neutral_sentiment_shape (pyLower t)).2 with h2 | h2 | h2 | h2 <;>
      rw [h2] <;> exact ⟨by norm_num, by norm_num⟩
  · exact ⟨by norm_num, by norm_num⟩
  · exact ⟨le_min (by norm_num) (by linarith), min_le_left _ _⟩
  · exact ⟨le_min (by norm_num) (by linarith), min_le_left _ _⟩

/-- Claim C8: a positive sentiment is always paired with one of the four
positive emotions (in particular never with anger). -/
theorem positive_sentiment_emotion_consistent (t : String)
    (h : (analyze_sentiment_ai t).1 = "positive") :
    (analyze_sentiment_ai t).2.1 ∈ (["excitement", "love", "joy", "satisfaction"] : List String) := by
  rcases ai_shape t with hs | hs | hs | hs | hs <;> rw [hs] at h ⊢
  · exact absurd h (by decide)
  · rw [(analyze_neutral_sentiment_shape (pyLower t)).1] at h
    exact absurd h (by decide)
  · exact absurd h (by decide)
  · simp at h
  · exact detect_emotion_positive_mem t (scanOf t).1

/-- Witness for C8 at the concrete text "good". -/
theorem positive_sentiment_emotion_consistent_witness :
    (analyze_sentiment_ai "good").1 = "positive" ∧
      (analyze_sentiment_ai "good").2.1 ∈
        (["excitement", "love", "joy", "satisfaction"] : List String) :=
  ⟨by rw [eval_good], positive_sentiment_emotion_consistent "good" (by rw [eval_good])⟩

/-- Claim C2 (corrected): the degenerate-input guard of the scorer fires
for texts with fewer than 2 significant characters (not 3), returning
exactly (neutral, neutral, 50); this covers empty and whitespace-only
input. -/
theorem short_text_neutral_default (t : String) (h : (pyStrip t).length < 2) :
    analyze_sentiment_ai t = ("neutral", "neutral", 50) := by
  unfold analyze_sentiment_ai
  rw [if_pos (Or.inr h)]

/-- Witness for the corrected C2 at a whitespace-only text. -/
theorem short_text_neutral_default_witness :
    (pyStrip " ").length < 2 ∧ analyze_sentiment_ai " " = ("neutral", "neutral", 50) :=
  ⟨by decide, short_text_neutral_default " " (by decide)⟩

/-- Counterexample to C2 as stated: the text "??" has 2 significant
characters, fewer than 3, yet the scorer returns (neutral, curious, 65)
rather than (neutral, neutral, 50). -/
theorem two_char_text_not_neutral_default :
    (pyStrip "??").length < 3 ∧ analyze_sentiment_ai "??" ≠ ("neutral", "neutral", 50) := by
  refine ⟨by decide, ?_⟩
  rw [eval_qq]
  intro hcontra
  have := congrArg (fun x => x.2.1) hcontra
  simp at this

/-- Claim C5 (corrected): the context modifier is consumed (reset to 1) by
the next token that is neither an intensifier nor a negation, whether or
not that token is in a lexicon. -/
theorem modifier_reset_on_any_token (p n m : ℚ) (w : String)
    (hi : lookupQ w intensifiers = none) (hn : lookupQ w negations = none) :
    (scanStep (p, n, m) w).2.2 = 1 := by
  simp only [scanStep, hi, hn]
  cases hlp : lookupQ w positive_words with
  | some wt => rfl
  | none =>
    cases hlq : lookupQ w negative_words with
    | some wt => rfl
    | none => rfl

/-- Witness for the corrected C5: the non-lexicon token "a" consumes a
pending negation modifier. -/
theorem modifier_reset_on_any_token_witness :
    lookupQ "a" intensifiers = none ∧ lookupQ "a" negations = none ∧
      (scanStep (5, 7, -1) "a").2.2 = 1 :=
  ⟨by decide, by decide, modifier_reset_on_any_token 5 7 (-1) "a" (by decide) (by decide)⟩

/-- Counterexample to C5 as stated: in "not a good" the negation is
consumed by the article "a", so "good" contributes unflipped and the text
scores positive; with the negation directly before the lexicon word, as in
"not good", the contribution is flipped and the text is neutral. -/
theorem negation_not_carried_over_article :
    analyze_sentiment_ai "not a good" = ("positive", "satisfaction", 53) ∧
      (analyze_sentiment_ai "not good").1 = "neutral" := by
  refine ⟨eval_not_a_good, ?_⟩
  rw [eval_not_good]

/-- Counterexample to C6 as stated: the lexicon scan does not normalize
its input, so a lexicon word adjacent to a stripped character scores
differently from the bare word. -/
theorem punctuation_changes_lexicon_score :
    analyze_sentiment_ai "great," ≠ analyze_sentiment_ai "great" := by
  rw [eval_great_comma, eval_great]
  intro hcontra
  have := congrArg (fun x => x.1) hcontra
  simp at this

/-- Claim C6 (corrected): `clean_text` performs the described
normalization (it maps "great," to "great"), but it is not applied on the
lexicon path, whose raw whitespace tokenization misses "great," and falls
back to the neutral default while the bare word scores positive; had the
lexicon path cleaned its input first, the two texts would score the same. -/
theorem clean_text_only_on_backend_path :
    clean_text "great," = "great" ∧
      analyze_sentiment_ai "great," = ("neutral", "neutral", 50) ∧
      analyze_sentiment_ai "great" = ("positive", "satisfaction", 56) ∧
      analyze_sentiment_enhanced (clean_text "great,") = analyze_sentiment_ai "great" := by
  refine ⟨by decide, eval_great_comma, eval_great, ?_⟩
  rw [show clean_text "great," = "great" from by decide, eval_great,
    ← ai_eq_enhanced "great" (by decide), eval_great]

/-- Counterexample to C9 as stated: for "very bad" the 1.5 intensifier
makes the dominant score 1.5, so the confidence 50 + 1.5*3 = 54.5 is not
an integer. -/
theorem intensifier_confidence_not_integer :
    (analyze_sentiment_ai "very bad").2.2 = 109/2 ∧
      ¬ ∃ z : ℤ, (analyze_sentiment_ai "very bad").2.2 = (z : ℚ) := by
  have h1 : (analyze_sentiment_ai "very bad").2.2 = 109/2 := by rw [eval_very_bad]
  refine ⟨h1, ?_⟩
  rintro ⟨z, hz⟩
  rw [h1] at hz
  have h2 : (109 : ℚ) = (z : ℚ) * 2 := by
    field_simp at hz
    linarith
  have h3 : (109 : ℤ) = z * 2 := by exact_mod_cast h2
  omega

/-- Claim C9 (corrected): the confidence is an integer whenever the text
contains no intensifier token; an intensifier multiplier can make it
fractional. -/
theorem no_intensifier_confidence_integer (t : String)
    (h : ∀ w ∈ pySplit (pyLower t), lookupQ w intensifiers = none) :
    ∃ z : ℤ, (analyze_sentiment_ai t).2.2 = (z : ℚ) := by
  have hint := foldl_scanStep_int (pySplit (pyLower t)) 0 0 1 h ⟨0, by norm_num⟩
    ⟨0, by norm_num⟩ (Or.inl rfl)
  have hintp : IsIntQ (scanOf t).1 := hint.1
  have hintn : IsIntQ (scanOf t).2.1 := hint.2
  rcases ai_shape t with hs | hs | hs | hs | hs <;> rw [hs]
  · exact ⟨50, by norm_num⟩
  · rcases (analyze_neutral_sentiment_shape (pyLower t)).2 with h2 | h2 | h2 | h2 <;> rw [h2]
    exacts [⟨65, by norm_num⟩, ⟨60, by norm_num⟩, ⟨55, by norm_num⟩, ⟨50, by norm_num⟩]
  · exact ⟨60, by norm_num⟩
  · exact isIntQ_min ⟨95, by norm_num⟩
      (isIntQ_add ⟨50, by norm_num⟩ (isIntQ_mul hintn ⟨3, by norm_num⟩))
  · exact isIntQ_min ⟨95, by norm_num⟩
      (isIntQ_add ⟨50, by norm_num⟩ (isIntQ_mul hintp ⟨3, by norm_num⟩))

/-- Witness for the corrected C9 at the intensifier-free text "bad". -/
theorem no_intensifier_confidence_integer_witness :
    (∀ w ∈ pySplit (pyLower "bad"), lookupQ w intensifiers = none) ∧
      ∃ z : ℤ, (analyze_sentiment_ai "bad").2.2 = (z : ℚ) :=
  ⟨by decide, no_intensifier_confidence_integer "bad" (by decide)⟩

/-- The first component of the risk tuple is always the rounded clamped
product formula, whatever tier branch is taken. -/
theorem risk_eq_formula (ms : List Mention) :
    (calculate_ai_risk ms).1 =
      pyRound (min 100 (((negativeCount ms : ℚ) * 8 + (angerCount ms : ℚ) * 12 +
        avgNegConfidence ms * (3/10) + min 20 ((ms.length : ℚ) * (1/10))) *
        (if ms.filter (fun m => m.sentiment == "negative") = [] then 1
          else 1 + avgNegConfidence ms / 100))) := by
  by_cases hms : ms = []
  · subst hms
    have h0 : pyRound 0 = 0 := pyRound_down 0 0 (by norm_num) (by norm_num) (by norm_num)
    have hL : (calculate_ai_risk ([] : List Mention)).1 = (0 : ℤ) := rfl
    rw [hL]
    simp only [negativeCount, angerCount, avgNegConfidence, List.filter_nil, List.length_nil]
    norm_num [min_def, h0]
  · simp only [calculate_ai_risk, if_neg hms, negativeCount, angerCount, avgNegConfidence]
    split <;> split <;> (try split) <;> rfl

/-- Claim C1 (corrected): for every batch, the returned risk score is
round(min(100, (negativeCount*8 + angerCount*12 + avgNegConfidence*0.3 +
min(20, total*0.1)) * m)) where m = 1 + avgNegConfidence/100 when a
negative item exists and 1 otherwise: a volume term and a confidence
multiplier also enter the score. -/
theorem risk_formula_with_volume_and_multiplier (ms : List Mention) :
    (calculate_ai_risk ms).1 =
      pyRound (min 100 (((negativeCount ms : ℚ) * 8 + (angerCount ms : ℚ) * 12 +
        avgNegConfidence ms * (3/10) + min 20 ((ms.length : ℚ) * (1/10))) *
        (if ms.filter (fun m => m.sentiment == "negative") = [] then 1
          else 1 + avgNegConfidence ms / 100))) :=
  risk_eq_formula ms

/-- Counterexample to C1 as stated: on the singleton batch with one
negative mention of confidence 90, the code returns 67 while the claimed
formula yields min(100, 8 + 0 + 27) = 35. -/
theorem risk_formula_claim_false :
    ((calculate_ai_risk [⟨"x", "negative", "disappointment", 90⟩]).1 : ℚ) ≠
      min 100 ((negativeCount [⟨"x", "negative", "disappointment", 90⟩] : ℚ) * 8 +
        (angerCount [⟨"x", "negative", "disappointment", 90⟩] : ℚ) * 12 +
        avgNegConfidence [⟨"x", "negative", "disappointment", 90⟩] * (3/10)) := by
  have hnc : negativeCount [(⟨"x", "negative", "disappointment", 90⟩ : Mention)] = 1 := rfl
  have hac : angerCount [(⟨"x", "negative", "disappointment", 90⟩ : Mention)] = 0 := rfl
  have hfil : (([(⟨"x", "negative", "disappointment", 90⟩ : Mention)]).filter
      fun m => m.sentiment == "negative") = [⟨"x", "negative", "disappointment", 90⟩] := rfl
  have hlen : ([(⟨"x", "negative", "disappointment", 90⟩ : Mention)]).length = 1 := rfl
  have hav : avgNegConfidence [(⟨"x", "negative", "disappointment", 90⟩ : Mention)] = 90 := by
    simp only [avgNegConfidence, hfil]
    rw [if_neg (by decide)]
    norm_num [List.map_cons, List.map_nil, List.sum_cons, List.sum_nil,
      List.length_cons, List.length_nil]
  have hv : (calculate_ai_risk [(⟨"x", "negative", "disappointment", 90⟩ : Mention)]).1 = 67 := by
    rw [risk_eq_formula, hnc, hac, hav, hfil, hlen, if_neg (by decide)]
    norm_num [min_def]
    rw [pyRound_up (6669/100 : ℚ) 66 (by norm_num) (by norm_num) (by norm_num)]
    norm_num
  rw [hv, hnc, hac, hav]
  norm_num [min_def]

/-- Claim C4: the risk aggregation is invariant under permutation of the
batch. -/
theorem assess_perm_invariant (ms₁ ms₂ : List Mention) (h : ms₁.Perm ms₂) :
    calculate_ai_risk ms₁ = calculate_ai_risk ms₂ := by
  have hlen : ms₁.length = ms₂.length := h.length_eq
  have hfn : (ms₁.filter fun m => m.sentiment == "negative").Perm
      (ms₂.filter fun m => m.sentiment == "negative") := h.filter _
  have hfnl : (ms₁.filter fun m => m.sentiment == "negative").length =
      (ms₂.filter fun m => m.sentiment == "negative").length := hfn.length_eq
  have hfa : (ms₁.filter fun m => m.emotion == "anger" || m.emotion == "frustration").length =
      (ms₂.filter fun m => m.emotion == "anger" || m.emotion == "frustration").length :=
    (h.filter _).length_eq
  have hsum : ((ms₁.filter fun m => m.sentiment == "negative").map fun m => m.confidence).sum =
      ((ms₂.filter fun m => m.sentiment == "negative").map fun m => m.confidence).sum :=
    (hfn.map _).sum_eq
  have hnil : (ms₁ = []) = (ms₂ = []) := by
    apply propext
    constructor <;> intro he <;> subst he
    · have h2 : ms₂.length = 0 := by simpa using hlen.symm
      exact List.length_eq_zero.mp h2
    · have h2 : ms₁.length = 0 := by simpa using hlen
      exact List.length_eq_zero.mp h2
  have hfnil : ((ms₁.filter fun m => m.sentiment == "negative") = []) =
      ((ms₂.filter fun m => m.sentiment == "negative") = []) := by
    apply propext
    constructor <;> intro he
    · have h2 : (ms₂.filter fun m => m.sentiment == "negative").length = 0 := by
        rw [← hfnl, he]
        rfl
      exact List.length_eq_zero.mp h2
    · have h2 : (ms₁.filter fun m => m.sentiment == "negative").length = 0 := by
        rw [hfnl, he]
        rfl
      exact List.length_eq_zero.mp h2
  simp only [calculate_ai_risk, hlen, hfnl, hfa, hsum, hnil, hfnil]

/-- Witness for C4: swapping a two-element batch leaves the assessment
unchanged. -/
theorem assess_perm_invariant_witness :
    ([⟨"a", "negative", "anger", 80⟩, ⟨"b", "positive", "joy", 70⟩] : List Mention).Perm
        [⟨"b", "positive", "joy", 70⟩, ⟨"a", "negative", "anger", 80⟩] ∧
      calculate_ai_risk [⟨"a", "negative", "anger", 80⟩, ⟨"b", "positive", "joy", 70⟩] =
        calculate_ai_risk [⟨"b", "positive", "joy", 70⟩, ⟨"a", "negative", "anger", 80⟩] :=
  ⟨List.Perm.swap _ _ _, assess_perm_invariant _ _ (List.Perm.swap _ _ _)⟩

/-- Claim C7: when the external call is reached and the classifier fails,
the transformers wrapper returns exactly the result of the lexicon scorer
on the original text, surfacing no error. -/
theorem backend_failure_falls_back (classify : String → Except String (String × ℚ))
    (t : String) (e : String) (hlen : 3 ≤ (clean_text t).length)
    (hfail : classify ((clean_text t).take 512) = Except.error e) :
    analyze_with_transformers classify t = analyze_sentiment_enhanced t := by
  simp only [analyze_with_transformers, if_neg (by omega : ¬(clean_text t).length < 3), hfail]

/-- Witness for C7: a classifier that always fails on the text "terrible"
falls back to the lexicon scorer. -/
theorem backend_failure_falls_back_witness :
    3 ≤ (clean_text "terrible").length ∧
      analyze_with_transformers (fun _ => Except.error "load failure") "terrible" =
        analyze_sentiment_enhanced "terrible" :=
  ⟨by decide, backend_failure_falls_back (fun _ => Except.error "load failure") "terrible"
    "load failure" (by decide) rfl⟩
